import Mathlib

/-!
Verification of the gRPC-web frame codec, streaming reader and request
builder of the fr24 Go client (pkg/flightradar: grpcweb.go, grpc.go,
grpc_headers.go), shallowly embedded in Lean.  Bytes are modelled as
natural numbers (< 256 on real wires); Go byte slices become `List Nat`
with capacity equal to length, so a Go slice expression whose upper bound
exceeds the length is a runtime fault, modelled by an explicit `panic`
constructor in the result types.
-/

/-- Big-endian 4-byte encoding of a 32-bit value, as written by
`binary.BigEndian.PutUint32` (each byte conversion truncates mod 256). -/
def be32 (n : Nat) : List Nat :=
  [n / 2 ^ 24 % 256, n / 2 ^ 16 % 256, n / 2 ^ 8 % 256, n % 256]

/-- Big-endian 32-bit read of the first four entries of a list, as done by
`binary.BigEndian.Uint32(data[1:5])` and by the shift expression in the
streaming read loop of `GrpcFollowFlightStream`. -/
def beUint32 : List Nat → Nat
  | b1 :: b2 :: b3 :: b4 :: _ => b1 * 2 ^ 24 + b2 * 2 ^ 16 + b3 * 2 ^ 8 + b4
  | _ => 0

/-- `encodeMessage` from grpcweb.go, after `proto.Marshal`: the body bytes
are framed as flag byte 0, the 4-byte big-endian length (`uint32(len(body))`
truncates mod 2^32), then the body.  Marshalling itself is external to the
codec; the function is taken at the byte level, on the marshalled body. -/
def encodeMessage (body : List Nat) : List Nat :=
  0 :: be32 (body.length % 2 ^ 32) ++ body

/-- `GrpcError` from grpcweb.go.  Go strings built from raw bytes are kept
as byte lists (`string(b)` is byte-preserving); the `Message` field only
ever holds Go string literals and is kept as a Lean `String`. -/
structure GrpcError where
  message : String
  raw : List Nat
  status : List Nat
  statusMessage : List Nat
  statusDetails : List Nat
deriving DecidableEq, Repr

/-- Result of `parseData` at the byte level: the extracted message bytes
(`data[5:5+n]`, handed to `proto.Unmarshal`), a returned `*GrpcError`, or a
runtime fault (Go slice out of range / close panic style). -/
inductive ParseResult where
  | ok (msg : List Nat)
  | err (e : GrpcError)
  | panic
deriving DecidableEq, Repr

/-- The six ASCII bytes trimmed by `bytes.TrimSpace`: tab, LF, VT, FF, CR,
space.  Trailer content is newline-delimited ASCII text (spec §6), on which
Go's Unicode-aware trimming coincides with this set. -/
def isSpaceByte (b : Nat) : Bool :=
  b == 9 || b == 10 || b == 11 || b == 12 || b == 13 || b == 32

/-- `bytes.TrimSpace` on ASCII content: drop leading and trailing
whitespace bytes. -/
def trimSpaceA (l : List Nat) : List Nat :=
  ((l.dropWhile isSpaceByte).reverse.dropWhile isSpaceByte).reverse

/-- Bytes of an ASCII string literal. -/
def strBytes (s : String) : List Nat :=
  s.toList.map Char.toNat

def grpcStatusKey : List Nat := strBytes "grpc-status:"

def grpcMessageKey : List Nat := strBytes "grpc-message:"

def grpcStatusDetailsKey : List Nat := strBytes "grpc-status-details-bin:"

/-- One iteration of the line loop in `parseTrailers`: an `else if` chain
matching the three recognized trailer keys, overwriting the corresponding
field; unmatched lines leave the error unchanged. -/
def trailerStep (ge : GrpcError) (ln : List Nat) : GrpcError :=
  if grpcStatusKey.isPrefixOf ln then
    ⟨ge.message, ge.raw, trimSpaceA (ln.drop grpcStatusKey.length),
      ge.statusMessage, ge.statusDetails⟩
  else if grpcMessageKey.isPrefixOf ln then
    ⟨ge.message, ge.raw, ge.status,
      trimSpaceA (ln.drop grpcMessageKey.length), ge.statusDetails⟩
  else if grpcStatusDetailsKey.isPrefixOf ln then
    ⟨ge.message, ge.raw, ge.status, ge.statusMessage,
      ln.drop grpcStatusDetailsKey.length⟩
  else ge

/-- `parseTrailers` from grpcweb.go.  `data[5:]` faults when the input is
shorter than 5 bytes; otherwise the remainder is trimmed, split on newline
and folded through the key-matching loop, starting from the base error
`{Message: "gRPC errored", Raw: data}`. -/
def parseTrailers (data : List Nat) : ParseResult :=
  if data.length < 5 then .panic
  else
    .err (((trimSpaceA (data.drop 5)).splitOn 10).foldl trailerStep
      ⟨"gRPC errored", data, [], [], []⟩)

/-- `parseData` from grpcweb.go at the byte level: the framing checks in
source order, returning the message bytes `data[5:5+n]` that the source
hands to `proto.Unmarshal`.  The slice `data[5:5+n]` faults when `5+n`
exceeds the length. -/
def parseData (data : List Nat) : ParseResult :=
  match data with
  | [] => .err ⟨"empty DATA frame", [], [], [], []⟩
  | flag :: _ =>
    if flag = 1 then .err ⟨"message is compressed, not implemented", data, [], [], []⟩
    else if flag ≠ 0 then parseTrailers data
    else if data.length < 5 then .err ⟨"short frame", data, [], [], []⟩
    else
      let n := beUint32 (data.drop 1)
      if n = 0 then .err ⟨"empty message payload", data, [], [], []⟩
      else if data.length < 5 + n then .panic
      else .ok ((data.drop 5).take n)

/-- A wire frame as assembled on the encoding side: flag byte, big-endian
32-bit payload length, payload. -/
def mkFrame (flag : Nat) (payload : List Nat) : List Nat :=
  flag :: be32 payload.length ++ payload

/-- The background read loop of `GrpcFollowFlightStream` (grpc.go) as a
function of the byte stream it will observe: `io.ReadFull` a 5-byte
header (fewer bytes before EOF ⇒ return), compute the payload length from
header bytes 1-4 by big-endian shifts, `io.ReadFull` exactly that many
payload bytes (short read ⇒ return), publish the reassembled 5+n-byte
frame, repeat.  `io.ReadFull` on a buffered reader is oblivious to how the
transport chunks the bytes, so the loop is a function of the concatenated
stream; the delivery channel is abstracted as the returned list, in
publish order, with no cancellation fired. -/
def readLoop : List Nat → List (List Nat)
  | f :: b1 :: b2 :: b3 :: b4 :: rest =>
    if b1 * 2 ^ 24 + b2 * 2 ^ 16 + b3 * 2 ^ 8 + b4 ≤ rest.length then
      (f :: b1 :: b2 :: b3 :: b4 :: rest.take (b1 * 2 ^ 24 + b2 * 2 ^ 16 + b3 * 2 ^ 8 + b4)) ::
        readLoop (rest.drop (b1 * 2 ^ 24 + b2 * 2 ^ 16 + b3 * 2 ^ 8 + b4))
    else []
  | _ => []
termination_by s => s.length
decreasing_by
  simp only [List.length_drop, List.length_cons]
  omega

/-- State of the resources owned by the cancel closure returned by
`GrpcFollowFlightStream`: whether the `done` channel and the response body
have been closed. -/
structure StreamCancelState where
  doneClosed : Bool
  bodyClosed : Bool
deriving DecidableEq

/-- Go channel close semantics: closing an open channel closes it; closing
an already-closed channel is a runtime panic (`none`). -/
def closeChan (closed : Bool) : Option Bool :=
  if closed then none else some true

/-- The cancel closure of `GrpcFollowFlightStream`:
`func() { close(done); _ = resp.Body.Close() }` — close the `done`
channel (a fault when it is already closed), then close the response body
(idempotent, its error discarded). -/
def cancelFn (s : StreamCancelState) : Option StreamCancelState :=
  match closeChan s.doneClosed with
  | none => none
  | some d => some ⟨d, true⟩

/-- Valid header-field bytes per Go's `validHeaderFieldByte` (RFC 7230
token characters): digits, letters, and the listed punctuation. -/
def isTokenByte (n : Nat) : Bool :=
  (decide (48 ≤ n) && decide (n ≤ 57)) || (decide (65 ≤ n) && decide (n ≤ 90)) ||
  (decide (97 ≤ n) && decide (n ≤ 122)) ||
  [33, 35, 36, 37, 38, 39, 42, 43, 45, 46, 94, 95, 96, 124, 126].contains n

/-- The per-character loop of Go's `canonicalMIMEHeaderKey`: uppercase a
letter at the start or after a hyphen, lowercase it otherwise. -/
def canonChars : Bool → List Char → List Char
  | _, [] => []
  | upper, c :: cs =>
    (if upper then c.toUpper else c.toLower) :: canonChars (c == '-') cs

/-- Go's `textproto.CanonicalMIMEHeaderKey`: keys holding a non-token byte
are returned unchanged; otherwise the casing is canonicalized. -/
def canonicalKey (s : String) : String :=
  if s.toList.all (fun c => isTokenByte c.toNat) then
    String.mk (canonChars true s.toList)
  else s

/-- `net/http.Header` / `textproto.MIMEHeader`: a map from canonicalized
keys to value lists, modelled as an association list whose stored keys are
canonical.  Go map iteration order is unspecified, but every fact proved
below depends only on the key-value mapping, which is deterministic. -/
abbrev Header := List (String × List String)

/-- `Header.Add`: append the value to the canonical key's entry, creating
the entry if absent. -/
def hAdd (h : Header) (k v : String) : Header :=
  if h.any (fun p => p.1 == canonicalKey k) then
    h.map (fun p => if p.1 == canonicalKey k then (p.1, p.2 ++ [v]) else p)
  else h ++ [(canonicalKey k, [v])]

/-- `Header.Set`: replace the canonical key's entry with the single value,
creating the entry if absent. -/
def hSet (h : Header) (k v : String) : Header :=
  if h.any (fun p => p.1 == canonicalKey k) then
    h.map (fun p => if p.1 == canonicalKey k then (p.1, [v]) else p)
  else h ++ [(canonicalKey k, [v])]

/-- `Header.Get`: first value stored under the canonical key, or "" when
the key is absent or its value list is empty. -/
def hGet (h : Header) (k : String) : String :=
  match h.find? (fun p => p.1 == canonicalKey k) with
  | some p => p.2.headD ""
  | none => ""

/-- Presence of the canonical key in the header map. -/
def hHas (h : Header) (k : String) : Bool :=
  (h.find? (fun p => p.1 == canonicalKey k)).isSome

/-- The nested `for k, vs := range headers { for _, v := range vs {
req.Header.Add(k, v) } }` copy loop of `constructGRPCRequest`, starting
from an arbitrary initial header map. -/
def copyHeaderInto (init : Header) (src : Header) : Header :=
  src.foldl (fun acc p => p.2.foldl (fun a v => hAdd a p.1 v) acc) init

/-- A header map as actually produced by Go's Add/Set operations: stored
keys are canonical and pairwise distinct, value lists are nonempty. -/
def HeaderCanonical (h : Header) : Prop :=
  (∀ p ∈ h, canonicalKey p.1 = p.1 ∧ p.2 ≠ []) ∧ (h.map Prod.fst).Nodup

def platformVersion : String := "25.197.0927"

/-- `defaultJSONHeaders` from json.go: the base browser-like header table
(a plain Go map, keys stored as written), with the device id entry added
when a device id is present.  Go map iteration order is arbitrary; the
literal order is used here, and all consumers are order-insensitive. -/
def defaultJSONHeaders (device : String) : Header :=
  let h : Header :=
    [("User-Agent", ["Mozilla/5.0 (X11; Linux x86_64; rv:136.0) Gecko/20100101 Firefox/136.0"]),
     ("Accept", ["text/html,application/xhtml+xml,application/xml;q=0.9,image/avif,image/webp,*/*;q=0.8"]),
     ("Accept-Language", ["en-US,en;q=0.5"]),
     ("Origin", ["https://www.flightradar24.com"]),
     ("Connection", ["keep-alive"]),
     ("Referer", ["https://www.flightradar24.com/"]),
     ("Sec-Fetch-Dest", ["empty"]),
     ("Sec-Fetch-Mode", ["cors"]),
     ("Sec-Fetch-Site", ["same-site"]),
     ("TE", ["trailers"])]
  if device ≠ "" then h ++ [("fr24-device-id", [device])] else h

/-- `defaultGRPCHeaders` from grpc_headers.go: copy the JSON headers into
an `http.Header` via Add, then Set the gRPC-web headers, the bearer token
header only when the token is nonempty, and the device id header only when
the device id is nonempty. -/
def defaultGRPCHeaders (deviceID bearer : String) : Header :=
  let h0 := copyHeaderInto [] (defaultJSONHeaders deviceID)
  let h1 := hSet h0 "Accept" "*/*"
  let h2 := hSet h1 "fr24-platform" ("web-" ++ platformVersion)
  let h3 := hSet h2 "x-envoy-retry-grpc-on" "unavailable"
  let h4 := hSet h3 "Content-Type" "application/grpc-web+proto"
  let h5 := hSet h4 "X-User-Agent" "grpc-web-javascript/0.1"
  let h6 := hSet h5 "X-Grpc-Web" "1"
  let h7 := hSet h6 "DNT" "1"
  let h8 := if bearer ≠ "" then hSet h7 "authorization" ("Bearer " ++ bearer) else h7
  if deviceID ≠ "" then hSet h8 "fr24-device-id" deviceID else h8

/-- Fully evaluated header table: the canonicalized copy of
`defaultJSONHeaders` (used in explicit-form lemmas about
`defaultGRPCHeaders`; note `TE` canonicalizes to `Te`). -/
def jsonCanon : Header :=
  [("User-Agent", ["Mozilla/5.0 (X11; Linux x86_64; rv:136.0) Gecko/20100101 Firefox/136.0"]),
   ("Accept", ["text/html,application/xhtml+xml,application/xml;q=0.9,image/avif,image/webp,*/*;q=0.8"]),
   ("Accept-Language", ["en-US,en;q=0.5"]),
   ("Origin", ["https://www.flightradar24.com"]),
   ("Connection", ["keep-alive"]),
   ("Referer", ["https://www.flightradar24.com/"]),
   ("Sec-Fetch-Dest", ["empty"]),
   ("Sec-Fetch-Mode", ["cors"]),
   ("Sec-Fetch-Site", ["same-site"]),
   ("Te", ["trailers"])]

/-- `jsonCanon` after `h.Set("Accept", "*/*")`. -/
def grpcBase : Header :=
  [("User-Agent", ["Mozilla/5.0 (X11; Linux x86_64; rv:136.0) Gecko/20100101 Firefox/136.0"]),
   ("Accept", ["*/*"]),
   ("Accept-Language", ["en-US,en;q=0.5"]),
   ("Origin", ["https://www.flightradar24.com"]),
   ("Connection", ["keep-alive"]),
   ("Referer", ["https://www.flightradar24.com/"]),
   ("Sec-Fetch-Dest", ["empty"]),
   ("Sec-Fetch-Mode", ["cors"]),
   ("Sec-Fetch-Site", ["same-site"]),
   ("Te", ["trailers"])]

/-- The device id entry as stored by Add/Set (canonical key). -/
def fdiE (d : String) : String × List String := ("Fr24-Device-Id", [d])

def platE : String × List String := ("Fr24-Platform", ["web-25.197.0927"])

def xenvE : String × List String := ("X-Envoy-Retry-Grpc-On", ["unavailable"])

def ctE : String × List String := ("Content-Type", ["application/grpc-web+proto"])

def xuaE : String × List String := ("X-User-Agent", ["grpc-web-javascript/0.1"])

def xgwE : String × List String := ("X-Grpc-Web", ["1"])

def dntE : String × List String := ("Dnt", ["1"])

/-- The bearer entry as stored by Set (canonical key). -/
def authE (b : String) : String × List String := ("Authorization", ["Bearer " ++ b])

/-- The outbound request built by `constructGRPCRequest`. -/
structure Request where
  url : String
  body : List Nat
  headers : Header

/-- `constructGRPCRequest` from grpcweb.go: encode the message, build a
POST to the fixed feed endpoint plus the method name, copy the supplied
headers in via Add, then Set each required gRPC-web header only when Get
returns "" for its key. -/
def constructGRPCRequest (method : String) (message : List Nat) (headers : Header) : Request :=
  let h1 := copyHeaderInto [] headers
  let h2 := if hGet h1 "Content-Type" = "" then
    hSet h1 "Content-Type" "application/grpc-web+proto" else h1
  let h3 := if hGet h2 "X-User-Agent" = "" then
    hSet h2 "X-User-Agent" "grpc-web-javascript/0.1" else h2
  let h4 := if hGet h3 "X-Grpc-Web" = "" then hSet h3 "X-Grpc-Web" "1" else h3
  ⟨"https://data-feed.flightradar24.com/fr24.feed.api.v1.Feed/" ++ method,
   encodeMessage message, h4⟩

/-- Result of the typed response helpers (`parse*Response` in grpcweb.go):
the Go pair `(*pb.X, error)` collapsed to its meaningful cases — a decoded
value, a returned `*GrpcError`, a `*ProtoParseError`, or a fault. -/
inductive DR (α : Type) where
  | ok (v : α)
  | errGrpc (e : GrpcError)
  | errProto
  | panic
deriving DecidableEq

/-- `parseLiveFeedResponse` (and every non-NearestFlights helper): run
`parseData` into a fresh message and hand back the error unchanged.
`proto.Unmarshal` is abstracted as a caller-supplied partial decoding
function `u` on the extracted message bytes (`none` = unmarshal failure,
reported as `ProtoParseError` by the source). -/
def parseLiveFeedResponse {α : Type} (u : List Nat → Option α) (data : List Nat) : DR α :=
  match parseData data with
  | .ok msg =>
    match u msg with
    | some v => .ok v
    | none => .errProto
  | .err e => .errGrpc e
  | .panic => .panic

/-- `parseNearestFlightsResponse` from grpcweb.go: identical to the other
helpers except that a `*GrpcError` whose message is "empty message payload"
or "empty DATA frame" is converted into a successful response holding the
zero-valued message (`zero` models the zero value of
`pb.NearestFlightsResponse`). -/
def parseNearestFlightsResponse {α : Type} (u : List Nat → Option α) (zero : α)
    (data : List Nat) : DR α :=
  match parseData data with
  | .ok msg =>
    match u msg with
    | some v => .ok v
    | none => .errProto
  | .err e =>
    if e.message = "empty message payload" ∨ e.message = "empty DATA frame" then .ok zero
    else .errGrpc e
  | .panic => .panic

/-- Outcome tag of `parseData` in its state-passing form. -/
inductive PDResult where
  | ok
  | grpcError (e : GrpcError)
  | protoError
  | panic
deriving DecidableEq

/-- `parseData` from grpcweb.go in state-passing form, tracking the target
message `into`: `proto.Unmarshal` is an arbitrary function `u` taking the
message bytes and the current target and returning the written target plus
a success flag (it may write to the target even when failing).  Every
framing check happens before `u` is ever applied. -/
def parseDataInto {α : Type} (u : List Nat → α → α × Bool) (data : List Nat) (into : α) :
    PDResult × α :=
  match data with
  | [] => (.grpcError ⟨"empty DATA frame", [], [], [], []⟩, into)
  | flag :: _ =>
    if flag = 1 then
      (.grpcError ⟨"message is compressed, not implemented", data, [], [], []⟩, into)
    else if flag ≠ 0 then
      (match parseTrailers data with
       | .err e => PDResult.grpcError e
       | _ => PDResult.panic, into)
    else if data.length < 5 then (.grpcError ⟨"short frame", data, [], [], []⟩, into)
    else if beUint32 (data.drop 1) = 0 then
      (.grpcError ⟨"empty message payload", data, [], [], []⟩, into)
    else if data.length < 5 + beUint32 (data.drop 1) then (.panic, into)
    else if (u ((data.drop 5).take (beUint32 (data.drop 1))) into).2 then
      (.ok, (u ((data.drop 5).take (beUint32 (data.drop 1))) into).1)
    else (.protoError, (u ((data.drop 5).take (beUint32 (data.drop 1))) into).1)

/-- The lines of a trailer frame, as produced inside `parseTrailers`:
skip the 5-byte header, trim the remainder, split on newline. -/
def linesOf (data : List Nat) : List (List Nat) :=
  (trimSpaceA (data.drop 5)).splitOn 10

/-- Specification-side view of the trailer line loop: the suffixes (after
the key) of the lines carrying a given trailer key, in order.  The loop
overwrites a field at each matching line, so its final value is the last
entry of this list. -/
def fieldLines (key : List Nat) (lines : List (List Nat)) : List (List Nat) :=
  lines.filterMap (fun ln => if key.isPrefixOf ln then some (ln.drop key.length) else none)

theorem be32_beUint32 (n : Nat) (h : n < 2 ^ 32) (tail : List Nat) :
    beUint32 (be32 n ++ tail) = n := by
  simp only [be32, beUint32, List.cons_append, List.nil_append]
  omega

theorem be32_mod (n : Nat) : be32 (n % 2 ^ 32) = be32 n := by
  simp only [be32, List.cons.injEq, and_true]
  refine ⟨?_, ?_, ?_, ?_⟩ <;> omega

theorem encodeMessage_eq (p : List Nat) : encodeMessage p = 0 :: be32 p.length ++ p := by
  rw [encodeMessage, be32_mod]

theorem parseData_flag0 (d1 d2 d3 d4 : Nat) (tail : List Nat) :
    parseData (0 :: d1 :: d2 :: d3 :: d4 :: tail) =
      (if d1 * 2 ^ 24 + d2 * 2 ^ 16 + d3 * 2 ^ 8 + d4 = 0 then
        ParseResult.err ⟨"empty message payload", 0 :: d1 :: d2 :: d3 :: d4 :: tail, [], [], []⟩
       else if tail.length < d1 * 2 ^ 24 + d2 * 2 ^ 16 + d3 * 2 ^ 8 + d4 then ParseResult.panic
       else ParseResult.ok (tail.take (d1 * 2 ^ 24 + d2 * 2 ^ 16 + d3 * 2 ^ 8 + d4))) := by
  simp only [parseData, beUint32, List.length_cons, List.drop_succ_cons, List.drop_zero]
  rw [if_neg (show ¬ ((0 : Nat) = 1) by decide),
    if_neg (show ¬ ((0 : Nat) ≠ 0) by decide),
    if_neg (show ¬ (tail.length + 1 + 1 + 1 + 1 + 1 < 5) by omega)]
  split
  · rfl
  · split
    · rw [if_pos (by omega)]
    · rw [if_neg (by omega)]

/-- Claim C1 (counterexample): the round-trip fails on the empty payload —
encoding `[]` yields the five zero bytes, which decode to the
"empty message payload" error, not to a successful empty payload. -/
theorem roundtrip_empty_counterexample :
    parseData (encodeMessage []) =
      ParseResult.err ⟨"empty message payload", [0, 0, 0, 0, 0], [], [], []⟩ ∧
    parseData (encodeMessage []) ≠ ParseResult.ok [] :=
  ⟨rfl, by decide⟩

/-- Claim C1 (amended): for every nonempty byte payload whose length is
representable in 32 bits, decoding the encoded data frame yields the
original payload back with no error; the empty payload instead decodes to
the `EmptyMessagePayload` error. -/
theorem roundtrip_nonempty (p : List Nat) (hne : p ≠ []) (hlen : p.length < 2 ^ 32) :
    parseData (encodeMessage p) = ParseResult.ok p := by
  rw [encodeMessage_eq]
  show parseData (0 :: p.length / 2 ^ 24 % 256 :: p.length / 2 ^ 16 % 256 ::
    p.length / 2 ^ 8 % 256 :: p.length % 256 :: p) = ParseResult.ok p
  rw [parseData_flag0]
  have hn : p.length / 2 ^ 24 % 256 * 2 ^ 24 + p.length / 2 ^ 16 % 256 * 2 ^ 16 +
      p.length / 2 ^ 8 % 256 * 2 ^ 8 + p.length % 256 = p.length := by omega
  rw [hn, if_neg (show ¬ p.length = 0 by
      rw [List.length_eq_zero]; exact hne),
    if_neg (lt_irrefl p.length), List.take_length]

theorem roundtrip_nonempty_witness : parseData (encodeMessage [7, 8, 9]) = ParseResult.ok [7, 8, 9] :=
  roundtrip_nonempty [7, 8, 9] (by decide) (by decide)

/-- Claim C2 (counterexample): a 1-byte input whose first byte is 1 hits the
compressed-frame check before the length check, so `Decode` returns the
`CompressedUnsupported` error, not `ShortFrame`. -/
theorem shortframe_flag1_counterexample :
    parseData [1] = ParseResult.err ⟨"message is compressed, not implemented", [1], [], [], []⟩ ∧
    parseData [1] ≠ ParseResult.err ⟨"short frame", [1], [], [], []⟩ :=
  ⟨rfl, by decide⟩

/-- Claim C2 (amended): for byte strings of length 1 to 4 the result depends
on the first byte: first byte 0 gives the `ShortFrame` error, first byte 1
gives the `CompressedUnsupported` error, and any other first byte takes the
trailer path, whose slice `data[5:]` faults on inputs shorter than 5. -/
theorem shortframe_by_flag (data : List Nat) (h1 : 1 ≤ data.length) (h4 : data.length ≤ 4) :
    (data.head? = some 0 → parseData data = ParseResult.err ⟨"short frame", data, [], [], []⟩) ∧
    (data.head? = some 1 →
      parseData data = ParseResult.err ⟨"message is compressed, not implemented", data, [], [], []⟩) ∧
    (∀ f, data.head? = some f → f ≠ 0 → f ≠ 1 → parseData data = ParseResult.panic) := by
  obtain ⟨f, rest, rfl⟩ : ∃ f rest, data = f :: rest := by
    cases data with
    | nil => simp at h1
    | cons f rest => exact ⟨f, rest, rfl⟩
  simp only [List.head?_cons, Option.some.injEq, List.length_cons] at *
  refine ⟨?_, ?_, ?_⟩
  · rintro rfl
    simp only [parseData]
    rw [if_neg (show ¬ ((0 : Nat) = 1) by decide),
      if_neg (show ¬ ((0 : Nat) ≠ 0) by decide),
      if_pos (show (0 :: rest).length < 5 by simp only [List.length_cons]; omega)]
  · rintro rfl
    simp [parseData]
  · rintro f1 hf hg0 hg1
    rw [← hf] at hg0 hg1
    simp only [parseData, parseTrailers]
    rw [if_neg hg1, if_pos hg0,
      if_pos (show (f :: rest).length < 5 by simp only [List.length_cons]; omega)]

theorem shortframe_by_flag_witness :
    parseData [0, 0] = ParseResult.err ⟨"short frame", [0, 0], [], [], []⟩ ∧
    parseData [2, 0, 0] = ParseResult.panic :=
  ⟨(shortframe_by_flag [0, 0] (by decide) (by decide)).1 rfl,
   (shortframe_by_flag [2, 0, 0] (by decide) (by decide)).2.2 2 rfl (by decide) (by decide)⟩

/-- Claim C8: for every payload whose length is representable in 32 bits,
`encodeMessage` produces exactly flag byte 0, the big-endian 32-bit length,
then the payload; the output length is 5 plus the payload length, the first
byte is 0, and encoding is total. -/
theorem encode_shape_total (p : List Nat) (_h : p.length < 2 ^ 32) :
    encodeMessage p = 0 :: be32 p.length ++ p ∧
    (encodeMessage p).length = 5 + p.length ∧
    (encodeMessage p).head? = some 0 := by
  refine ⟨encodeMessage_eq p, ?_, ?_⟩
  · rw [encodeMessage_eq]
    simp only [be32, List.cons_append, List.nil_append, List.length_cons]
    omega
  · rw [encodeMessage_eq]
    rfl

theorem encode_shape_total_witness :
    encodeMessage [7] = 0 :: be32 [7].length ++ [7] ∧
    (encodeMessage [7]).length = 5 + [7].length ∧
    (encodeMessage [7]).head? = some 0 :=
  encode_shape_total [7] (by decide)

/-- Claim C9: on a flag-0 input of length at least 5 whose declared
big-endian payload length `n` is positive but extends past the end of the
input, the slice `data[5:5+n]` is out of range and `parseData` faults;
conversely the data-frame path returns a value or an error only when the
full declared payload is present (or `n = 0`). -/
theorem parseData_truncated_panics (data : List Nat)
    (h0 : data.head? = some 0) (h5 : 5 ≤ data.length) :
    parseData data = ParseResult.panic ↔
      (0 < beUint32 (data.drop 1) ∧ data.length < 5 + beUint32 (data.drop 1)) := by
  obtain ⟨d1, d2, d3, d4, tail, rfl⟩ :
      ∃ d1 d2 d3 d4 tail, data = 0 :: d1 :: d2 :: d3 :: d4 :: tail := by
    rcases data with _ | ⟨f, _ | ⟨a, _ | ⟨b, _ | ⟨c, _ | ⟨d, tail⟩⟩⟩⟩⟩ <;>
      simp only [List.length_cons, List.length_nil] at h5 <;> try omega
    simp only [List.head?_cons, Option.some.injEq] at h0
    subst h0
    exact ⟨a, b, c, d, tail, rfl⟩
  rw [parseData_flag0]
  simp only [List.drop_succ_cons, List.drop_zero, beUint32, List.length_cons]
  split
  · simp only [reduceCtorEq, false_iff]
    omega
  · split
    · simp only [true_iff]
      omega
    · simp only [reduceCtorEq, false_iff]
      omega

theorem parseData_truncated_panics_witness : parseData [0, 0, 0, 0, 2, 9] = ParseResult.panic :=
  (parseData_truncated_panics [0, 0, 0, 0, 2, 9] rfl (by decide)).mpr (by decide)

theorem keys_exclusive (k1 k2 : List Nat) (h12 : k1.length ≤ k2.length)
    (hne : k1 ≠ k2.take k1.length) (ln : List Nat)
    (h1 : k1.isPrefixOf ln = true) (h2 : k2.isPrefixOf ln = true) : False := by
  rw [List.isPrefixOf_iff_prefix, List.prefix_iff_eq_take] at h1 h2
  apply hne
  rw [h2, List.take_take, Nat.min_eq_left h12]
  exact h1

theorem foldl_trailerStep (lines : List (List Nat)) (ge : GrpcError) :
    lines.foldl trailerStep ge =
      ⟨ge.message, ge.raw,
       ((fieldLines grpcStatusKey lines).map trimSpaceA).getLastD ge.status,
       ((fieldLines grpcMessageKey lines).map trimSpaceA).getLastD ge.statusMessage,
       (fieldLines grpcStatusDetailsKey lines).getLastD ge.statusDetails⟩ := by
  induction lines generalizing ge with
  | nil => rfl
  | cons ln rest ih =>
    rw [List.foldl_cons, ih]
    by_cases h1 : grpcStatusKey.isPrefixOf ln = true
    · have e2 : grpcMessageKey.isPrefixOf ln = false := by
        rw [Bool.eq_false_iff]
        intro h2
        exact keys_exclusive grpcStatusKey grpcMessageKey (by decide) (by decide) ln h1 h2
      have e3 : grpcStatusDetailsKey.isPrefixOf ln = false := by
        rw [Bool.eq_false_iff]
        intro h3
        exact keys_exclusive grpcStatusKey grpcStatusDetailsKey (by decide) (by decide) ln h1 h3
      simp only [trailerStep, fieldLines, List.filterMap_cons, h1, e2, e3, if_true, if_false,
        Bool.false_eq_true, List.map_cons, List.getLastD_cons, ite_true, ite_false]
    · rw [Bool.not_eq_true] at h1
      by_cases h2 : grpcMessageKey.isPrefixOf ln = true
      · have e3 : grpcStatusDetailsKey.isPrefixOf ln = false := by
          rw [Bool.eq_false_iff]
          intro h3
          exact keys_exclusive grpcMessageKey grpcStatusDetailsKey (by decide) (by decide) ln h2 h3
        simp only [trailerStep, fieldLines, List.filterMap_cons, h1, h2, e3, if_true, if_false,
          Bool.false_eq_true, List.map_cons, List.getLastD_cons, ite_true, ite_false]
      · rw [Bool.not_eq_true] at h2
        by_cases h3 : grpcStatusDetailsKey.isPrefixOf ln = true
        · simp only [trailerStep, fieldLines, List.filterMap_cons, h1, h2, h3, if_true, if_false,
            Bool.false_eq_true, List.map_cons, List.getLastD_cons, ite_true, ite_false]
        · rw [Bool.not_eq_true] at h3
          simp only [trailerStep, fieldLines, List.filterMap_cons, h1, h2, h3, if_true, if_false,
            Bool.false_eq_true, List.map_cons, List.getLastD_cons, ite_true, ite_false]

theorem parseTrailers_eq (data : List Nat) (h5 : 5 ≤ data.length) :
    parseTrailers data = ParseResult.err
      ⟨"gRPC errored", data,
       ((fieldLines grpcStatusKey (linesOf data)).map trimSpaceA).getLastD [],
       ((fieldLines grpcMessageKey (linesOf data)).map trimSpaceA).getLastD [],
       (fieldLines grpcStatusDetailsKey (linesOf data)).getLastD []⟩ := by
  rw [parseTrailers, if_neg (by omega), foldl_trailerStep]
  rfl

/-- Claim C5 (counterexample): the `grpc-status-details-bin` field is taken
as the raw byte suffix after the key, with no whitespace trimming: the
trailer line "grpc-status-details-bin: x" yields details `[32, 120]`
(" x"), not the trimmed `[120]`. -/
theorem trailer_details_untrimmed_counterexample :
    parseData ([2, 0, 0, 0, 0] ++ strBytes "grpc-status-details-bin: x") =
      ParseResult.err
        ⟨"gRPC errored", [2, 0, 0, 0, 0] ++ strBytes "grpc-status-details-bin: x",
         [], [], [32, 120]⟩ ∧
    ([32, 120] : List Nat) ≠ trimSpaceA [32, 120] := by
  refine ⟨by decide, by decide⟩

/-- Claim C5 (amended): for every input of length at least 5 whose first
byte is neither 0 nor 1, `parseData` returns the trailer-derived error
built from the bytes at offset 5 onward, trimmed and split on newline:
status and message are the whitespace-trimmed text after the last
"grpc-status:" and "grpc-message:" line respectively, while the details
field is the raw, untrimmed byte suffix after the last
"grpc-status-details-bin:" line; unmatched lines are skipped, and the
error carries the raw input bytes.  In particular the trailer payload
"grpc-status: 5\ngrpc-message: not found\n" yields status "5" and message
"not found". -/
theorem trailer_parsing_amended :
    (∀ data f, 5 ≤ data.length → data.head? = some f → f ≠ 0 → f ≠ 1 →
      parseData data = ParseResult.err
        ⟨"gRPC errored", data,
         ((fieldLines grpcStatusKey (linesOf data)).map trimSpaceA).getLastD [],
         ((fieldLines grpcMessageKey (linesOf data)).map trimSpaceA).getLastD [],
         (fieldLines grpcStatusDetailsKey (linesOf data)).getLastD []⟩) ∧
    parseData ([2, 0, 0, 0, 0] ++ strBytes "grpc-status: 5\ngrpc-message: not found\n") =
      ParseResult.err
        ⟨"gRPC errored",
         [2, 0, 0, 0, 0] ++ strBytes "grpc-status: 5\ngrpc-message: not found\n",
         strBytes "5", strBytes "not found", []⟩ := by
  constructor
  · intro data f h5 hf hf0 hf1
    obtain ⟨rest, rfl⟩ : ∃ rest, data = f :: rest := by
      cases data with
      | nil => simp at hf
      | cons g rest =>
        simp only [List.head?_cons, Option.some.injEq] at hf
        exact ⟨rest, by rw [hf]⟩
    simp only [parseData]
    rw [if_neg hf1, if_pos hf0, parseTrailers_eq (f :: rest) h5]
  · decide

theorem trailer_parsing_amended_witness :
    parseData [2, 0, 0, 0, 0] =
      ParseResult.err ⟨"gRPC errored", [2, 0, 0, 0, 0], [], [], []⟩ := by
  have h := trailer_parsing_amended.1 [2, 0, 0, 0, 0] 2 (by decide) rfl (by decide) (by decide)
  exact h

/-- Claim C3: the NearestFlights helper alone converts the codec's
`EmptyMessagePayload` and `EmptyFrame` errors into a successful zero-valued
response — in particular the five zero bytes decode to a non-error empty
result — while `parseLiveFeedResponse` (like every other helper)
propagates every `parseData` error unchanged. -/
theorem nearest_empty_exemption :
    (∀ (α : Type) (u : List Nat → Option α) (zero : α),
      parseNearestFlightsResponse u zero [0, 0, 0, 0, 0] = DR.ok zero) ∧
    (∀ (α : Type) (u : List Nat → Option α),
      parseLiveFeedResponse u [0, 0, 0, 0, 0] =
        DR.errGrpc ⟨"empty message payload", [0, 0, 0, 0, 0], [], [], []⟩) ∧
    (∀ (α : Type) (u : List Nat → Option α) (zero : α) (data : List Nat) (e : GrpcError),
      parseData data = ParseResult.err e →
      (e.message = "empty message payload" ∨ e.message = "empty DATA frame") →
      parseNearestFlightsResponse u zero data = DR.ok zero) ∧
    (∀ (α : Type) (u : List Nat → Option α) (data : List Nat) (e : GrpcError),
      parseData data = ParseResult.err e →
      parseLiveFeedResponse u data = DR.errGrpc e) := by
  refine ⟨fun α u zero => rfl, fun α u => rfl, ?_, ?_⟩
  · intro α u zero data e hpe hmsg
    simp only [parseNearestFlightsResponse, hpe]
    rw [if_pos hmsg]
  · intro α u data e hpe
    simp only [parseLiveFeedResponse, hpe]

theorem nearest_empty_exemption_witness :
    parseNearestFlightsResponse (fun _ => some ()) () [] = DR.ok () ∧
    parseLiveFeedResponse (fun _ => some ()) [1] =
      DR.errGrpc ⟨"message is compressed, not implemented", [1], [], [], []⟩ :=
  ⟨nearest_empty_exemption.2.2.1 Unit (fun _ => some ()) () []
      ⟨"empty DATA frame", [], [], [], []⟩ rfl (Or.inr rfl),
   nearest_empty_exemption.2.2.2 Unit (fun _ => some ()) [1]
      ⟨"message is compressed, not implemented", [1], [], [], []⟩ rfl⟩

/-- Claim C10: whenever the state-passing `parseData` returns a
`*GrpcError` (empty frame, compressed, trailer, short frame, empty
payload), the target message `into` is returned completely unmodified —
all framing checks precede any unmarshalling write, so only a successful
decode or a `ProtoParseError` can follow a write attempt. -/
theorem grpc_error_leaves_into_unmodified :
    ∀ (α : Type) (u : List Nat → α → α × Bool) (data : List Nat) (into : α) (e : GrpcError),
      (parseDataInto u data into).1 = PDResult.grpcError e →
      (parseDataInto u data into).2 = into := by
  intro α u data into e h
  cases data with
  | nil => rfl
  | cons f rest =>
    simp only [parseDataInto] at h ⊢
    split_ifs at h ⊢ <;> rfl

theorem grpc_error_leaves_into_unmodified_witness :
    (parseDataInto (fun m s => (m ++ s, true)) [0, 0, 0, 0, 0] [9]).2 = [9] :=
  grpc_error_leaves_into_unmodified (List Nat) (fun m s => (m ++ s, true)) [0, 0, 0, 0, 0] [9]
    ⟨"empty message payload", [0, 0, 0, 0, 0], [], [], []⟩ (by decide)

theorem readLoop_cons (f : Nat) (p rest : List Nat) (hp : p.length < 2 ^ 32) :
    readLoop (mkFrame f p ++ rest) = mkFrame f p :: readLoop rest := by
  show readLoop (f :: p.length / 2 ^ 24 % 256 :: p.length / 2 ^ 16 % 256 ::
    p.length / 2 ^ 8 % 256 :: p.length % 256 :: (p ++ rest)) = _
  rw [readLoop]
  have hn : p.length / 2 ^ 24 % 256 * 2 ^ 24 + p.length / 2 ^ 16 % 256 * 2 ^ 16 +
      p.length / 2 ^ 8 % 256 * 2 ^ 8 + p.length % 256 = p.length := by omega
  rw [hn, if_pos (show p.length ≤ (p ++ rest).length by
    simp only [List.length_append]; omega)]
  rw [show List.take p.length (p ++ rest) = p from List.take_left p rest,
    show List.drop p.length (p ++ rest) = rest from List.drop_left p rest]
  rfl

theorem readLoop_frames_main (frames : List (Nat × List Nat))
    (hw : ∀ pr ∈ frames, pr.2.length < 2 ^ 32) :
    readLoop ((frames.map (fun pr => mkFrame pr.1 pr.2)).flatten) =
      frames.map (fun pr => mkFrame pr.1 pr.2) := by
  induction frames with
  | nil => simp [readLoop]
  | cons pr t ih =>
    simp only [List.map_cons, List.flatten_cons]
    rw [readLoop_cons pr.1 pr.2 _ (hw pr (List.mem_cons_self pr t))]
    rw [ih (fun q hq => hw q (List.mem_cons_of_mem pr hq))]

/-- Claim C4: the streaming read loop, run over the concatenation of N
well-formed wire frames however the transport chunks them, yields exactly
the N full 5+length-byte frames in original wire order; a remainder
shorter than a 5-byte header, or a header whose declared payload length
exceeds the remaining bytes, makes the loop terminate cleanly with no
extra (error) frame emitted. -/
theorem readLoop_frames_in_order :
    (∀ (frames : List (Nat × List Nat)) (chunks : List (List Nat)),
      (∀ pr ∈ frames, pr.2.length < 2 ^ 32) →
      chunks.flatten = (frames.map (fun pr => mkFrame pr.1 pr.2)).flatten →
      readLoop chunks.flatten = frames.map (fun pr => mkFrame pr.1 pr.2)) ∧
    (∀ s : List Nat, s.length < 5 → readLoop s = []) ∧
    (∀ (f b1 b2 b3 b4 : Nat) (rest : List Nat),
      rest.length < b1 * 2 ^ 24 + b2 * 2 ^ 16 + b3 * 2 ^ 8 + b4 →
      readLoop (f :: b1 :: b2 :: b3 :: b4 :: rest) = []) := by
  refine ⟨?_, ?_, ?_⟩
  · intro frames chunks hw hj
    rw [hj]
    exact readLoop_frames_main frames hw
  · intro s h
    rcases s with _ | ⟨a, _ | ⟨b, _ | ⟨c, _ | ⟨d, _ | ⟨e, t⟩⟩⟩⟩⟩ <;>
      simp only [readLoop] <;> simp only [List.length_cons] at h <;> omega
  · intro f b1 b2 b3 b4 rest h
    rw [readLoop, if_neg (by omega)]

theorem readLoop_frames_in_order_witness :
    readLoop (List.flatten [[0, 0, 0], [0, 2, 10, 20, 1, 0, 0], [0, 1, 5]]) =
      [[0, 0, 0, 0, 2, 10, 20], [1, 0, 0, 0, 1, 5]] ∧
    readLoop [0, 0] = [] := by
  constructor
  · have h := readLoop_frames_in_order.1 [(0, [10, 20]), (1, [5])]
      [[0, 0, 0], [0, 2, 10, 20, 1, 0, 0], [0, 1, 5]] (by decide) (by decide)
    exact h
  · exact readLoop_frames_in_order.2.1 [0, 0] (by decide)

/-- Claim C6 (code evaluation at the failing input): the first invocation
of the cancel closure closes the `done` channel and the response body, but
a second invocation runs `close(done)` on an already-closed channel, which
panics — cancellation is not idempotent as the code stands. -/
theorem cancel_second_call_panics :
    cancelFn ⟨false, false⟩ = some ⟨true, true⟩ ∧
    (cancelFn ⟨false, false⟩).bind cancelFn = none :=
  ⟨rfl, rfl⟩

theorem find?_cons_true {α : Type} (p : α → Bool) (a : α) (l : List α) (h : p a = true) :
    List.find? p (a :: l) = some a :=
  List.find?_cons_of_pos l h

theorem find?_cons_false {α : Type} (p : α → Bool) (a : α) (l : List α) (h : p a = false) :
    List.find? p (a :: l) = List.find? p l :=
  List.find?_cons_of_neg l (by simp [h])

theorem map_if_id (h : Header) (ck : String) (g : String × List String → String × List String)
    (hk : ∀ p ∈ h, p.1 ≠ ck) :
    h.map (fun p => if p.1 == ck then g p else p) = h := by
  induction h with
  | nil => rfl
  | cons p t ih =>
    simp only [List.map_cons]
    rw [if_neg (by simpa using hk p (List.mem_cons_self p t)),
      ih (fun q hq => hk q (List.mem_cons_of_mem p hq))]

theorem find?_map_if_other (h : Header) (ck ck' : String) (w : List String)
    (hne : ck' ≠ ck) :
    (h.map (fun p => if p.1 == ck then (p.1, w) else p)).find? (fun p => p.1 == ck') =
      h.find? (fun p => p.1 == ck') := by
  induction h with
  | nil => rfl
  | cons p t ih =>
    simp only [List.map_cons]
    by_cases hp : (p.1 == ck) = true
    · rw [if_pos hp]
      by_cases hq : (p.1 == ck') = true
      · exact absurd ((beq_iff_eq.mp hq).symm.trans (beq_iff_eq.mp hp)) hne
      · rw [find?_cons_false (fun q => q.1 == ck') (p.1, w) _
            (by simpa using Bool.not_eq_true _ |>.mp hq),
          find?_cons_false (fun q => q.1 == ck') p _ (Bool.not_eq_true _ |>.mp hq), ih]
    · rw [if_neg hp]
      by_cases hq : (p.1 == ck') = true
      · rw [find?_cons_true (fun q => q.1 == ck') p _ hq,
          find?_cons_true (fun q => q.1 == ck') p _ hq]
      · rw [find?_cons_false (fun q => q.1 == ck') p _ (Bool.not_eq_true _ |>.mp hq),
          find?_cons_false (fun q => q.1 == ck') p _ (Bool.not_eq_true _ |>.mp hq), ih]

theorem find?_map_if_self (h : Header) (ck : String) (w : List String)
    (ha : h.any (fun p => p.1 == ck) = true) :
    (h.map (fun p => if p.1 == ck then (p.1, w) else p)).find? (fun p => p.1 == ck) =
      some (ck, w) := by
  induction h with
  | nil => simp at ha
  | cons p t ih =>
    simp only [List.any_cons, Bool.or_eq_true] at ha
    simp only [List.map_cons]
    by_cases hp : (p.1 == ck) = true
    · rw [if_pos hp, find?_cons_true (fun q => q.1 == ck) (p.1, w) _ hp, beq_iff_eq.mp hp]
    · rw [if_neg hp, find?_cons_false (fun q => q.1 == ck) p _ (Bool.not_eq_true _ |>.mp hp)]
      exact ih (ha.resolve_left hp)

theorem hSet_find?_other (h : Header) (k k' v : String)
    (hne : canonicalKey k' ≠ canonicalKey k) :
    (hSet h k v).find? (fun p => p.1 == canonicalKey k') =
      h.find? (fun p => p.1 == canonicalKey k') := by
  unfold hSet
  split
  · exact find?_map_if_other h (canonicalKey k) (canonicalKey k') [v] hne
  · rw [List.find?_append]
    have h2 : List.find? (fun p => p.1 == canonicalKey k') [(canonicalKey k, [v])] = none := by
      apply List.find?_eq_none.mpr
      intro x hx
      simp only [List.mem_singleton] at hx
      subst hx
      simp only [beq_iff_eq]
      exact fun e => hne e.symm
    rw [h2]
    cases List.find? (fun p => p.1 == canonicalKey k') h <;> rfl

theorem hGet_hSet_other (h : Header) (k k' v : String)
    (hne : canonicalKey k' ≠ canonicalKey k) :
    hGet (hSet h k v) k' = hGet h k' := by
  unfold hGet
  rw [hSet_find?_other h k k' v hne]

theorem hHas_hSet_other (h : Header) (k k' v : String)
    (hne : canonicalKey k' ≠ canonicalKey k) :
    hHas (hSet h k v) k' = hHas h k' := by
  unfold hHas
  rw [hSet_find?_other h k k' v hne]

theorem hGet_hSet_self (h : Header) (k v : String) : hGet (hSet h k v) k = v := by
  unfold hGet hSet
  by_cases ha : h.any (fun p => p.1 == canonicalKey k) = true
  · rw [if_pos ha, find?_map_if_self h _ [v] ha]
    rfl
  · rw [Bool.not_eq_true] at ha
    rw [if_neg (by rw [ha]; exact Bool.false_ne_true), List.find?_append,
      List.find?_eq_none.mpr (List.any_eq_false.mp ha),
      find?_cons_true (fun q => q.1 == canonicalKey k) (canonicalKey k, [v]) [] (by simp)]
    rfl

theorem hGet_condSet_self (g : Header) (k d : String) :
    hGet (if hGet g k = "" then hSet g k d else g) k =
      if hGet g k = "" then d else hGet g k := by
  split
  · rw [hGet_hSet_self]
  · rfl

theorem hGet_condSet_other (g : Header) (k d k' : String)
    (hne : canonicalKey k' ≠ canonicalKey k) :
    hGet (if hGet g k = "" then hSet g k d else g) k' = hGet g k' := by
  split
  · rw [hGet_hSet_other g k k' d hne]
  · rfl

theorem hHas_condSet_other (g : Header) (k d k' : String)
    (hne : canonicalKey k' ≠ canonicalKey k) :
    hHas (if hGet g k = "" then hSet g k d else g) k' = hHas g k' := by
  split
  · rw [hHas_hSet_other g k k' d hne]
  · rfl

theorem hAdd_fresh (h : Header) (k v : String) (hk : ∀ p ∈ h, p.1 ≠ canonicalKey k) :
    hAdd h k v = h ++ [(canonicalKey k, [v])] := by
  unfold hAdd
  have ha : h.any (fun p => p.1 == canonicalKey k) = false :=
    List.any_eq_false.mpr (fun p hp => by simpa using hk p hp)
  rw [if_neg (by rw [ha]; exact Bool.false_ne_true)]

theorem foldl_hAdd_accum (init : Header) (k : String)
    (hk : ∀ p ∈ init, p.1 ≠ canonicalKey k) (vs : List String) :
    ∀ ws : List String,
      vs.foldl (fun a v => hAdd a k v) (init ++ [(canonicalKey k, ws)]) =
        init ++ [(canonicalKey k, ws ++ vs)] := by
  induction vs with
  | nil => intro ws; simp
  | cons v vs' ih =>
    intro ws
    rw [List.foldl_cons]
    have hstep : hAdd (init ++ [(canonicalKey k, ws)]) k v =
        init ++ [(canonicalKey k, ws ++ [v])] := by
      unfold hAdd
      have hany : ((init ++ [(canonicalKey k, ws)]).any fun p => p.1 == canonicalKey k) = true := by
        simp [List.any_append]
      rw [if_pos hany, List.map_append, map_if_id init _ _ hk]
      simp
    rw [hstep, ih (ws ++ [v])]
    simp

theorem addValues_fresh (init : Header) (k : String) (vs : List String)
    (hk : ∀ p ∈ init, p.1 ≠ canonicalKey k) (hvs : vs ≠ []) :
    vs.foldl (fun a v => hAdd a k v) init = init ++ [(canonicalKey k, vs)] := by
  cases vs with
  | nil => exact absurd rfl hvs
  | cons v vs' =>
    rw [List.foldl_cons, hAdd_fresh init k v hk, foldl_hAdd_accum init k hk vs' [v]]
    rfl

theorem copyHeaderInto_of_canonical (src : List (String × List String)) :
    ∀ init : Header,
      (∀ p ∈ src, canonicalKey p.1 = p.1 ∧ p.2 ≠ []) →
      (src.map Prod.fst).Nodup →
      (∀ kk ∈ src.map Prod.fst, ∀ p ∈ init, p.1 ≠ kk) →
      copyHeaderInto init src = init ++ src := by
  induction src with
  | nil => intro init _ _ _; simp [copyHeaderInto]
  | cons q t ih =>
    intro init hcan hnd hdisj
    have hq := hcan q (List.mem_cons_self q t)
    have hfresh : ∀ p ∈ init, p.1 ≠ canonicalKey q.1 := by
      rw [hq.1]
      exact fun p hp => hdisj q.1 (by simp) p hp
    have hstep : q.2.foldl (fun a v => hAdd a q.1 v) init = init ++ [(q.1, q.2)] := by
      rw [addValues_fresh init q.1 q.2 hfresh hq.2, hq.1]
    simp only [List.map_cons, List.nodup_cons] at hnd
    have hrest : copyHeaderInto (init ++ [(q.1, q.2)]) t = (init ++ [(q.1, q.2)]) ++ t :=
      ih (init ++ [(q.1, q.2)])
        (fun p hp => hcan p (List.mem_cons_of_mem q hp))
        hnd.2
        (by
          intro kk hkk p hp
          rcases List.mem_append.mp hp with hp1 | hp2
          · exact hdisj kk (List.mem_cons_of_mem _ hkk) p hp1
          · simp only [List.mem_singleton] at hp2
            subst hp2
            exact fun e => hnd.1 (e ▸ hkk))
    have hfold : copyHeaderInto init (q :: t) = copyHeaderInto (init ++ [(q.1, q.2)]) t := by
      unfold copyHeaderInto
      rw [List.foldl_cons, hstep]
    rw [hfold, hrest]
    simp

theorem copyHeaderInto_id (h : Header) (hc : HeaderCanonical h) :
    copyHeaderInto [] h = h := by
  have := copyHeaderInto_of_canonical h [] hc.1 hc.2
    (fun kk _ p hp => absurd hp (List.not_mem_nil p))
  simpa using this

theorem copyJSON_dev (d : String) :
    copyHeaderInto []
      ([("User-Agent", ["Mozilla/5.0 (X11; Linux x86_64; rv:136.0) Gecko/20100101 Firefox/136.0"]),
        ("Accept", ["text/html,application/xhtml+xml,application/xml;q=0.9,image/avif,image/webp,*/*;q=0.8"]),
        ("Accept-Language", ["en-US,en;q=0.5"]),
        ("Origin", ["https://www.flightradar24.com"]),
        ("Connection", ["keep-alive"]),
        ("Referer", ["https://www.flightradar24.com/"]),
        ("Sec-Fetch-Dest", ["empty"]),
        ("Sec-Fetch-Mode", ["cors"]),
        ("Sec-Fetch-Site", ["same-site"]),
        ("TE", ["trailers"])] ++ [("fr24-device-id", [d])]) = jsonCanon ++ [fdiE d] := rfl

theorem copyJSON_nodev :
    copyHeaderInto []
      [("User-Agent", ["Mozilla/5.0 (X11; Linux x86_64; rv:136.0) Gecko/20100101 Firefox/136.0"]),
       ("Accept", ["text/html,application/xhtml+xml,application/xml;q=0.9,image/avif,image/webp,*/*;q=0.8"]),
       ("Accept-Language", ["en-US,en;q=0.5"]),
       ("Origin", ["https://www.flightradar24.com"]),
       ("Connection", ["keep-alive"]),
       ("Referer", ["https://www.flightradar24.com/"]),
       ("Sec-Fetch-Dest", ["empty"]),
       ("Sec-Fetch-Mode", ["cors"]),
       ("Sec-Fetch-Site", ["same-site"]),
       ("TE", ["trailers"])] = jsonCanon := rfl

theorem setAccept_dev (d : String) :
    hSet (jsonCanon ++ [fdiE d]) "Accept" "*/*" = grpcBase ++ [fdiE d] := rfl

theorem setPlat_dev (d : String) :
    hSet (grpcBase ++ [fdiE d]) "fr24-platform" ("web-" ++ platformVersion) =
      grpcBase ++ [fdiE d, platE] := rfl

theorem setXenv_dev (d : String) :
    hSet (grpcBase ++ [fdiE d, platE]) "x-envoy-retry-grpc-on" "unavailable" =
      grpcBase ++ [fdiE d, platE, xenvE] := rfl

theorem setCT_dev (d : String) :
    hSet (grpcBase ++ [fdiE d, platE, xenvE]) "Content-Type" "application/grpc-web+proto" =
      grpcBase ++ [fdiE d, platE, xenvE, ctE] := rfl

theorem setXUA_dev (d : String) :
    hSet (grpcBase ++ [fdiE d, platE, xenvE, ctE]) "X-User-Agent" "grpc-web-javascript/0.1" =
      grpcBase ++ [fdiE d, platE, xenvE, ctE, xuaE] := rfl

theorem setXGW_dev (d : String) :
    hSet (grpcBase ++ [fdiE d, platE, xenvE, ctE, xuaE]) "X-Grpc-Web" "1" =
      grpcBase ++ [fdiE d, platE, xenvE, ctE, xuaE, xgwE] := rfl

theorem setDNT_dev (d : String) :
    hSet (grpcBase ++ [fdiE d, platE, xenvE, ctE, xuaE, xgwE]) "DNT" "1" =
      grpcBase ++ [fdiE d, platE, xenvE, ctE, xuaE, xgwE, dntE] := rfl

theorem setAuth_dev (d b : String) :
    hSet (grpcBase ++ [fdiE d, platE, xenvE, ctE, xuaE, xgwE, dntE]) "authorization"
      ("Bearer " ++ b) = grpcBase ++ [fdiE d, platE, xenvE, ctE, xuaE, xgwE, dntE, authE b] := rfl

theorem setFDI_auth (d b : String) :
    hSet (grpcBase ++ [fdiE d, platE, xenvE, ctE, xuaE, xgwE, dntE, authE b]) "fr24-device-id" d =
      grpcBase ++ [fdiE d, platE, xenvE, ctE, xuaE, xgwE, dntE, authE b] := rfl

theorem setFDI_noauth (d : String) :
    hSet (grpcBase ++ [fdiE d, platE, xenvE, ctE, xuaE, xgwE, dntE]) "fr24-device-id" d =
      grpcBase ++ [fdiE d, platE, xenvE, ctE, xuaE, xgwE, dntE] := rfl

theorem setAccept_nodev : hSet jsonCanon "Accept" "*/*" = grpcBase := rfl

theorem setPlat_nodev :
    hSet grpcBase "fr24-platform" ("web-" ++ platformVersion) = grpcBase ++ [platE] := rfl

theorem setXenv_nodev :
    hSet (grpcBase ++ [platE]) "x-envoy-retry-grpc-on" "unavailable" =
      grpcBase ++ [platE, xenvE] := rfl

theorem setCT_nodev :
    hSet (grpcBase ++ [platE, xenvE]) "Content-Type" "application/grpc-web+proto" =
      grpcBase ++ [platE, xenvE, ctE] := rfl

theorem setXUA_nodev :
    hSet (grpcBase ++ [platE, xenvE, ctE]) "X-User-Agent" "grpc-web-javascript/0.1" =
      grpcBase ++ [platE, xenvE, ctE, xuaE] := rfl

theorem setXGW_nodev :
    hSet (grpcBase ++ [platE, xenvE, ctE, xuaE]) "X-Grpc-Web" "1" =
      grpcBase ++ [platE, xenvE, ctE, xuaE, xgwE] := rfl

theorem setDNT_nodev :
    hSet (grpcBase ++ [platE, xenvE, ctE, xuaE, xgwE]) "DNT" "1" =
      grpcBase ++ [platE, xenvE, ctE, xuaE, xgwE, dntE] := rfl

theorem setAuth_nodev (b : String) :
    hSet (grpcBase ++ [platE, xenvE, ctE, xuaE, xgwE, dntE]) "authorization" ("Bearer " ++ b) =
      grpcBase ++ [platE, xenvE, ctE, xuaE, xgwE, dntE, authE b] := rfl

theorem dgh_dev_auth (d b : String) (hd : d ≠ "") (hb : b ≠ "") :
    defaultGRPCHeaders d b =
      grpcBase ++ [fdiE d, platE, xenvE, ctE, xuaE, xgwE, dntE, authE b] := by
  simp only [defaultGRPCHeaders, defaultJSONHeaders]
  rw [if_pos hd, if_pos hb, if_pos hd, copyJSON_dev, setAccept_dev, setPlat_dev, setXenv_dev,
    setCT_dev, setXUA_dev, setXGW_dev, setDNT_dev, setAuth_dev, setFDI_auth]

theorem dgh_dev_noauth (d : String) (hd : d ≠ "") :
    defaultGRPCHeaders d "" =
      grpcBase ++ [fdiE d, platE, xenvE, ctE, xuaE, xgwE, dntE] := by
  simp only [defaultGRPCHeaders, defaultJSONHeaders]
  rw [if_pos hd, if_neg (show ¬("" ≠ "") by simp), if_pos hd, copyJSON_dev, setAccept_dev,
    setPlat_dev, setXenv_dev, setCT_dev, setXUA_dev, setXGW_dev, setDNT_dev, setFDI_noauth]

theorem dgh_nodev_auth (b : String) (hb : b ≠ "") :
    defaultGRPCHeaders "" b =
      grpcBase ++ [platE, xenvE, ctE, xuaE, xgwE, dntE, authE b] := by
  simp only [defaultGRPCHeaders, defaultJSONHeaders]
  rw [if_neg (show ¬("" ≠ "") by simp), if_pos hb, if_neg (show ¬("" ≠ "") by simp),
    copyJSON_nodev, setAccept_nodev, setPlat_nodev, setXenv_nodev, setCT_nodev, setXUA_nodev,
    setXGW_nodev, setDNT_nodev, setAuth_nodev]

theorem dgh_nodev_noauth :
    defaultGRPCHeaders "" "" = grpcBase ++ [platE, xenvE, ctE, xuaE, xgwE, dntE] := by
  simp only [defaultGRPCHeaders, defaultJSONHeaders]
  rw [if_neg (show ¬("" ≠ "") by simp), if_neg (show ¬("" ≠ "") by simp),
    if_neg (show ¬("" ≠ "") by simp), copyJSON_nodev, setAccept_nodev, setPlat_nodev,
    setXenv_nodev, setCT_nodev, setXUA_nodev, setXGW_nodev, setDNT_nodev]

theorem canonical_dev_auth (d b : String) :
    HeaderCanonical (grpcBase ++ [fdiE d, platE, xenvE, ctE, xuaE, xgwE, dntE, authE b]) := by
  constructor
  · rw [List.forall_mem_append]
    refine ⟨by decide, ?_⟩
    simp only [List.forall_mem_cons, fdiE, platE, xenvE, ctE, xuaE, xgwE, dntE, authE]
    exact ⟨⟨by decide, by simp⟩, ⟨by decide, by simp⟩, ⟨by decide, by simp⟩,
      ⟨by decide, by simp⟩, ⟨by decide, by simp⟩, ⟨by decide, by simp⟩,
      ⟨by decide, by simp⟩, ⟨by decide, by simp⟩, by simp⟩
  · simp only [List.map_append, List.map_cons, List.map_nil, grpcBase, fdiE, platE, xenvE, ctE,
      xuaE, xgwE, dntE, authE]
    decide

theorem canonical_dev_noauth (d : String) :
    HeaderCanonical (grpcBase ++ [fdiE d, platE, xenvE, ctE, xuaE, xgwE, dntE]) := by
  constructor
  · rw [List.forall_mem_append]
    refine ⟨by decide, ?_⟩
    simp only [List.forall_mem_cons, fdiE, platE, xenvE, ctE, xuaE, xgwE, dntE]
    exact ⟨⟨by decide, by simp⟩, ⟨by decide, by simp⟩, ⟨by decide, by simp⟩,
      ⟨by decide, by simp⟩, ⟨by decide, by simp⟩, ⟨by decide, by simp⟩,
      ⟨by decide, by simp⟩, by simp⟩
  · simp only [List.map_append, List.map_cons, List.map_nil, grpcBase, fdiE, platE, xenvE, ctE,
      xuaE, xgwE, dntE]
    decide

theorem canonical_nodev_auth (b : String) :
    HeaderCanonical (grpcBase ++ [platE, xenvE, ctE, xuaE, xgwE, dntE, authE b]) := by
  constructor
  · rw [List.forall_mem_append]
    refine ⟨by decide, ?_⟩
    simp only [List.forall_mem_cons, platE, xenvE, ctE, xuaE, xgwE, dntE, authE]
    exact ⟨⟨by decide, by simp⟩, ⟨by decide, by simp⟩, ⟨by decide, by simp⟩,
      ⟨by decide, by simp⟩, ⟨by decide, by simp⟩, ⟨by decide, by simp⟩,
      ⟨by decide, by simp⟩, by simp⟩
  · simp only [List.map_append, List.map_cons, List.map_nil, grpcBase, platE, xenvE, ctE,
      xuaE, xgwE, dntE, authE]
    decide

theorem canonical_nodev_noauth :
    HeaderCanonical (grpcBase ++ [platE, xenvE, ctE, xuaE, xgwE, dntE]) := by
  constructor
  · rw [List.forall_mem_append]
    exact ⟨by decide, by decide⟩
  · simp only [List.map_append, List.map_cons, List.map_nil, grpcBase, platE, xenvE, ctE,
      xuaE, xgwE, dntE]
    decide

theorem hHas_dev_auth (d b : String) :
    hHas (grpcBase ++ [fdiE d, platE, xenvE, ctE, xuaE, xgwE, dntE, authE b])
      "Authorization" = true := rfl

theorem hHas_dev_noauth (d : String) :
    hHas (grpcBase ++ [fdiE d, platE, xenvE, ctE, xuaE, xgwE, dntE]) "Authorization" = false := rfl

theorem hHas_nodev_auth (b : String) :
    hHas (grpcBase ++ [platE, xenvE, ctE, xuaE, xgwE, dntE, authE b]) "Authorization" = true := rfl

theorem hHas_nodev_noauth :
    hHas (grpcBase ++ [platE, xenvE, ctE, xuaE, xgwE, dntE]) "Authorization" = false := rfl

theorem hGet_dev_auth (d b : String) :
    hGet (grpcBase ++ [fdiE d, platE, xenvE, ctE, xuaE, xgwE, dntE, authE b])
      "Authorization" = "Bearer " ++ b := rfl

theorem hGet_nodev_auth (b : String) :
    hGet (grpcBase ++ [platE, xenvE, ctE, xuaE, xgwE, dntE, authE b])
      "Authorization" = "Bearer " ++ b := rfl

theorem construct_defaults (method : String) (message : List Nat) (h : Header)
    (hc : HeaderCanonical h) :
    hGet (constructGRPCRequest method message h).headers "Content-Type" =
      (if hGet h "Content-Type" = "" then "application/grpc-web+proto"
       else hGet h "Content-Type") ∧
    hGet (constructGRPCRequest method message h).headers "X-User-Agent" =
      (if hGet h "X-User-Agent" = "" then "grpc-web-javascript/0.1"
       else hGet h "X-User-Agent") ∧
    hGet (constructGRPCRequest method message h).headers "X-Grpc-Web" =
      (if hGet h "X-Grpc-Web" = "" then "1" else hGet h "X-Grpc-Web") ∧
    hHas (constructGRPCRequest method message h).headers "Authorization" =
      hHas h "Authorization" := by
  have hcopy := copyHeaderInto_id h hc
  simp only [constructGRPCRequest, hcopy]
  refine ⟨?_, ?_, ?_, ?_⟩
  · rw [hGet_condSet_other _ "X-Grpc-Web" "1" "Content-Type" (by decide),
      hGet_condSet_other _ "X-User-Agent" "grpc-web-javascript/0.1" "Content-Type" (by decide),
      hGet_condSet_self _ "Content-Type" "application/grpc-web+proto"]
  · rw [hGet_condSet_other _ "X-Grpc-Web" "1" "X-User-Agent" (by decide),
      hGet_condSet_self _ "X-User-Agent" "grpc-web-javascript/0.1",
      hGet_condSet_other _ "Content-Type" "application/grpc-web+proto" "X-User-Agent" (by decide)]
  · rw [hGet_condSet_self _ "X-Grpc-Web" "1",
      hGet_condSet_other _ "X-User-Agent" "grpc-web-javascript/0.1" "X-Grpc-Web" (by decide),
      hGet_condSet_other _ "Content-Type" "application/grpc-web+proto" "X-Grpc-Web" (by decide)]
  · rw [hHas_condSet_other _ "X-Grpc-Web" "1" "Authorization" (by decide),
      hHas_condSet_other _ "X-User-Agent" "grpc-web-javascript/0.1" "Authorization" (by decide),
      hHas_condSet_other _ "Content-Type" "application/grpc-web+proto" "Authorization" (by decide)]

theorem default_auth (deviceID bearer : String) :
    (hHas (defaultGRPCHeaders deviceID bearer) "Authorization" = true ↔ bearer ≠ "") ∧
    (bearer ≠ "" →
      hGet (defaultGRPCHeaders deviceID bearer) "Authorization" = "Bearer " ++ bearer) := by
  by_cases hd : deviceID = "" <;> by_cases hb : bearer = ""
  · subst hd; subst hb
    rw [dgh_nodev_noauth]
    refine ⟨?_, fun hf => absurd rfl hf⟩
    rw [hHas_nodev_noauth]
    simp
  · subst hd
    rw [dgh_nodev_auth bearer hb]
    refine ⟨?_, fun _ => hGet_nodev_auth bearer⟩
    rw [hHas_nodev_auth]
    simp [hb]
  · subst hb
    rw [dgh_dev_noauth deviceID hd]
    refine ⟨?_, fun hf => absurd rfl hf⟩
    rw [hHas_dev_noauth]
    simp
  · rw [dgh_dev_auth deviceID bearer hd hb]
    refine ⟨?_, fun _ => hGet_dev_auth deviceID bearer⟩
    rw [hHas_dev_auth]
    simp [hb]

theorem construct_default_auth (method deviceID bearer : String) (message : List Nat) :
    hHas (constructGRPCRequest method message
      (defaultGRPCHeaders deviceID bearer)).headers "Authorization" = true ↔ bearer ≠ "" := by
  by_cases hd : deviceID = "" <;> by_cases hb : bearer = ""
  · subst hd; subst hb
    rw [dgh_nodev_noauth,
      (construct_defaults method message _ canonical_nodev_noauth).2.2.2, hHas_nodev_noauth]
    simp
  · subst hd
    rw [dgh_nodev_auth bearer hb,
      (construct_defaults method message _ (canonical_nodev_auth bearer)).2.2.2,
      hHas_nodev_auth]
    simp [hb]
  · subst hb
    rw [dgh_dev_noauth deviceID hd,
      (construct_defaults method message _ (canonical_dev_noauth deviceID)).2.2.2,
      hHas_dev_noauth]
    simp
  · rw [dgh_dev_auth deviceID bearer hd hb,
      (construct_defaults method message _ (canonical_dev_auth deviceID bearer)).2.2.2,
      hHas_dev_auth]
    simp [hb]

/-- Claim C7: for every method name, message and caller-supplied header
map, the built request carries the content-type marker
(application/grpc-web+proto), the user-agent marker
(grpc-web-javascript/0.1) and the capability marker (X-Grpc-Web: 1), each
set only when the caller-supplied headers carry no value for that key
(caller-supplied values win), and the request's Authorization presence
matches the caller headers'; the default gRPC header set carries the
bearer header exactly when the token is nonempty — with value
"Bearer " plus the token, never empty — and consequently the built request
carries Authorization exactly when the token is nonempty. -/
theorem grpc_request_header_defaulting :
    (∀ (method : String) (message : List Nat) (h : Header), HeaderCanonical h →
      hGet (constructGRPCRequest method message h).headers "Content-Type" =
        (if hGet h "Content-Type" = "" then "application/grpc-web+proto"
         else hGet h "Content-Type") ∧
      hGet (constructGRPCRequest method message h).headers "X-User-Agent" =
        (if hGet h "X-User-Agent" = "" then "grpc-web-javascript/0.1"
         else hGet h "X-User-Agent") ∧
      hGet (constructGRPCRequest method message h).headers "X-Grpc-Web" =
        (if hGet h "X-Grpc-Web" = "" then "1" else hGet h "X-Grpc-Web") ∧
      hHas (constructGRPCRequest method message h).headers "Authorization" =
        hHas h "Authorization") ∧
    (∀ deviceID bearer : String,
      (hHas (defaultGRPCHeaders deviceID bearer) "Authorization" = true ↔ bearer ≠ "") ∧
      (bearer ≠ "" →
        hGet (defaultGRPCHeaders deviceID bearer) "Authorization" = "Bearer " ++ bearer)) ∧
    (∀ (method deviceID bearer : String) (message : List Nat),
      hHas (constructGRPCRequest method message
        (defaultGRPCHeaders deviceID bearer)).headers "Authorization" = true ↔ bearer ≠ "") :=
  ⟨construct_defaults, default_auth, construct_default_auth⟩

theorem grpc_request_header_defaulting_witness :
    hGet (constructGRPCRequest "LiveFeed" [] [("Content-Type", ["text/plain"])]).headers
      "Content-Type" = "text/plain" ∧
    hGet (constructGRPCRequest "LiveFeed" [] [("Content-Type", ["text/plain"])]).headers
      "X-Grpc-Web" = "1" ∧
    (hHas (constructGRPCRequest "LiveFeed" [] (defaultGRPCHeaders "dev" "tok")).headers
      "Authorization" = true) := by
  refine ⟨?_, ?_, ?_⟩
  · exact (grpc_request_header_defaulting.1 "LiveFeed" [] _ ⟨by decide, by decide⟩).1
  · exact (grpc_request_header_defaulting.1 "LiveFeed" [] _ ⟨by decide, by decide⟩).2.2.1
  · exact (grpc_request_header_defaulting.2.2 "LiveFeed" "dev" "tok" []).mpr (by decide)
